import Mathlib

/-!
Shallow embedding of the `span` crate: a `Span<T>` value is a carrier handle
plus a half-open index range, implementing the nom input traits.  The carrier
is modelled as a `List α` (for `&str`, a list of chars).  Rust panics — an
out-of-bounds carrier slice in `as_inner`, a failed `parse::<i64>` in
`value_i64` — are modelled as `none`.
-/

set_option autoImplicit false

universe u

variable {α : Type u}

/-- Rust slice indexing `&xs[a..b]` on the carrier (what nom implements as
`Slice<Range<usize>>` for `&str` and `&[u8]`): the subsequence of `xs` at
positions `[a, b)` when `a ≤ b ≤ xs.length`, and `none` for the
out-of-bounds panic. -/
def rustSlice (xs : List α) (a b : Nat) : Option (List α) :=
  if a ≤ b ∧ b ≤ xs.length then some ((xs.take b).drop a) else none

/-- `Span<T>`: a carrier handle `inner` plus offsets `start` and `stop`
(the source field is called `end`, a Lean keyword) forming the half-open
range `[start, stop)`. -/
structure Span (α : Type u) where
  inner : List α
  start : Nat
  stop : Nat
deriving DecidableEq

namespace Span

/-- `Span::new(inner, start, end)`: explicit constructor, no validation. -/
def new (inner : List α) (start stop : Nat) : Span α :=
  ⟨inner, start, stop⟩

/-- `Span::end(inner)`: zero-length span positioned at the carrier end. -/
def endOf (inner : List α) : Span α :=
  ⟨inner, inner.length, inner.length⟩

/-- `From<T> for Span<T>`: the whole-carrier span `[0, inner.input_len())`. -/
def fromInner (inner : List α) : Span α :=
  ⟨inner, 0, inner.length⟩

/-- `Span::as_inner`: `self.inner.slice(self.start..self.end)`, delegating to
the carrier slice (which panics when the range is out of bounds). -/
def as_inner (s : Span α) : Option (List α) :=
  rustSlice s.inner s.start s.stop

/-- `Span::between(first, second)`: span from `first.start` to `second.start`
over the carrier of `first`. -/
def between (first second : Span α) : Span α :=
  ⟨first.inner, first.start, second.start⟩

/-- `Span::to(first, second)`: span from `first.start` to `second.end`
over the carrier of `first` (named `to'` since `to` is a reserved token). -/
def to' (first second : Span α) : Span α :=
  ⟨first.inner, first.start, second.stop⟩

/-- `InputLength for Span<T>`:
`self.end.min(self.inner.input_len()).saturating_sub(self.start)`
(Nat subtraction is saturating). -/
def input_len (s : Span α) : Nat :=
  min s.stop s.inner.length - s.start

/-- `Slice<Range<usize>> for Span<T>`: relative `[a, b)` becomes absolute
`[start + a, start + b)`. -/
def slice (s : Span α) (a b : Nat) : Span α :=
  ⟨s.inner, s.start + a, s.start + b⟩

/-- `Slice<RangeFrom<usize>> for Span<T>`: relative `[a, ..)` becomes
absolute `[start + a, end)`. -/
def sliceFrom (s : Span α) (a : Nat) : Span α :=
  ⟨s.inner, s.start + a, s.stop⟩

/-- `Slice<RangeTo<usize>> for Span<T>`: relative `[.., b)` becomes
absolute `[start, start + b)`. -/
def sliceTo (s : Span α) (b : Nat) : Span α :=
  ⟨s.inner, s.start, s.start + b⟩

/-- `Slice<RangeFull> for Span<T>`: returns `*self` unchanged. -/
def sliceFull (s : Span α) : Span α :=
  s

/-- `InputTake::take(count)`: `self.slice(..count)`. -/
def take (s : Span α) (count : Nat) : Span α :=
  s.sliceTo count

/-- `InputTake::take_split(count)`: `(self.slice(count..), self.slice(..count))`,
i.e. `(remainder, taken)`. -/
def take_split (s : Span α) (count : Nat) : Span α × Span α :=
  (s.sliceFrom count, s.sliceTo count)

/-- `Offset for Span<T>`: `second.start.saturating_sub(self.start)`. -/
def offset (s second : Span α) : Nat :=
  second.start - s.start

end Span

/-- Outcome of the `InputTakeAtPosition` methods: `ok remainder taken` embeds
`Ok((remainder, taken))`; `incomplete n` embeds
`Err(Err::Incomplete(Needed::new(n)))`; `err s k` embeds
`Err(Err::Error(E::from_error_kind(s, k)))`, the `ErrorKind` tag modelled as
a `Nat`. -/
inductive SplitRes (α : Type u) where
  | ok : Span α → Span α → SplitRes α
  | incomplete : Nat → SplitRes α
  | err : Span α → Nat → SplitRes α
deriving DecidableEq

namespace Span

/-- `InputIter::position for Span<T>`: `self.as_inner().position(predicate)`,
the first relative index of the materialized content satisfying the
predicate.  Outer `none` is the panic of `as_inner`. -/
def position (s : Span α) (p : α → Bool) : Option (Option Nat) :=
  (s.as_inner).map (fun content => content.findIdx? p)

/-- `InputTakeAtPosition::split_at_position`: searches the materialized
content; found at `n` gives `Ok(take_split(n))`, not found gives
`Incomplete`. -/
def split_at_position (s : Span α) (p : α → Bool) : Option (SplitRes α) :=
  (s.as_inner).map (fun content =>
    match content.findIdx? p with
    | none => .incomplete 1
    | some n => .ok (s.take_split n).1 (s.take_split n).2)

/-- `InputTakeAtPosition::split_at_position_complete`: as
`split_at_position`, but an `Incomplete` outcome is replaced by consuming
the whole span, `Ok(take_split(input_len))`. -/
def split_at_position_complete (s : Span α) (p : α → Bool) :
    Option (SplitRes α) :=
  match s.split_at_position p with
  | some (.incomplete _) =>
      some (.ok (s.take_split s.input_len).1 (s.take_split s.input_len).2)
  | res => res

/-- `InputTakeAtPosition::split_at_position1`: a match at relative index 0 is
`Error(kind)`; a match at `n > 0` is `Ok(take_split(n))`; no match is
`Incomplete`. -/
def split_at_position1 (s : Span α) (p : α → Bool) (e : Nat) :
    Option (SplitRes α) :=
  (s.as_inner).map (fun content =>
    match content.findIdx? p with
    | some 0 => .err s e
    | some n => .ok (s.take_split n).1 (s.take_split n).2
    | none => .incomplete 1)

/-- `InputTakeAtPosition::split_at_position1_complete`: as
`split_at_position1`, but on no match the span is consumed whole when the
materialized content is non-empty, and `Error(kind)` is returned when it is
empty. -/
def split_at_position1_complete (s : Span α) (p : α → Bool) (e : Nat) :
    Option (SplitRes α) :=
  (s.as_inner).map (fun content =>
    match content.findIdx? p with
    | some 0 => .err s e
    | some n => .ok (s.take_split n).1 (s.take_split n).2
    | none =>
        if content.length = 0 then .err s e
        else .ok (s.take_split s.input_len).1 (s.take_split s.input_len).2)

end Span

/-- Value of an ASCII decimal digit, as in the standard-library integer
parser used by `str::parse::<i64>`. -/
def digitVal (c : Char) : Option Nat :=
  if ('0' ≤ c ∧ c ≤ '9') then some (c.toNat - Char.toNat '0') else none

/-- Accumulate decimal digits left to right; `none` on a non-digit. -/
def parseDigitsAux (cs : List Char) (acc : Nat) : Option Nat :=
  match cs with
  | [] => some acc
  | c :: rest =>
      match digitVal c with
      | none => none
      | some d => parseDigitsAux rest (acc * 10 + d)

/-- Magnitude of a non-empty all-digit string; `none` otherwise. -/
def parseDigits (cs : List Char) : Option Nat :=
  match cs with
  | [] => none
  | _ :: _ => parseDigitsAux cs 0

/-- `str::parse::<i64>` on the content: optional sign, at least one decimal
digit, result within the i64 range; `none` models the parse error. -/
def parseI64 (cs : List Char) : Option Int :=
  match cs with
  | '+' :: rest =>
      (parseDigits rest).bind (fun m =>
        if m ≤ 2 ^ 63 - 1 then some (Int.ofNat m) else none)
  | '-' :: rest =>
      (parseDigits rest).bind (fun m =>
        if m ≤ 2 ^ 63 then some (-(Int.ofNat m)) else none)
  | _ =>
      (parseDigits cs).bind (fun m =>
        if m ≤ 2 ^ 63 - 1 then some (Int.ofNat m) else none)

namespace Span

/-- `Span::<&str>::value_i64`: `unwrap!(self.as_inner().parse::<i64>(), ...)`;
`none` models the panic (of the out-of-bounds slice or of the failed
parse). -/
def value_i64 (s : Span Char) : Option Int :=
  (s.as_inner).bind parseI64

end Span

/-! ## Claims -/

/-- Claim C1, as stated, is false: `as_inner` does not clamp.  At the span
`[0, 5)` over the two-element carrier `[0, 1]`, the claimed result is the
carrier content of `[0, min 5 2)`, i.e. `some [0, 1]`, but the code slices
the carrier with the unclamped range `0..5` and faults (out-of-bounds
panic, modelled as `none`). -/
theorem as_inner_clamping_counterexample :
    ¬ (Span.new ([0, 1] : List Nat) 0 5).as_inner =
        some ((([0, 1] : List Nat).take
          (min 5 ([0, 1] : List Nat).length)).drop 0) := by
  decide

/-- Claim C1 (amended): `as_inner` returns exactly the sub-sequence of the
carrier in `[start, end)` when `start ≤ end ≤ carrier.length`; a span whose
declared end exceeds the carrier length is not clamped — materializing it
faults (out-of-bounds carrier slice). -/
theorem as_inner_spec (s : Span α) :
    (s.start ≤ s.stop → s.stop ≤ s.inner.length →
      s.as_inner = some ((s.inner.take s.stop).drop s.start)) ∧
    (s.inner.length < s.stop → s.as_inner = none) := by
  constructor
  · intro h1 h2
    simp [Span.as_inner, rustSlice, h1, h2]
  · intro h
    have hnot : ¬ (s.start ≤ s.stop ∧ s.stop ≤ s.inner.length) := by omega
    simp [Span.as_inner, rustSlice, hnot]

/-- Witness for `as_inner_spec` at concrete spans over `[7, 8, 9]`. -/
theorem as_inner_spec_witness :
    (Span.new ([7, 8, 9] : List Nat) 1 3).as_inner =
      some ((([7, 8, 9] : List Nat).take 3).drop 1) ∧
    (Span.new ([7, 8, 9] : List Nat) 0 5).as_inner = none :=
  ⟨(as_inner_spec (Span.new [7, 8, 9] 1 3)).1 (by decide) (by decide),
   (as_inner_spec (Span.new [7, 8, 9] 0 5)).2 (by decide)⟩

/-- Claim C2: `input_len` is `min(end, carrier.length) − start`, saturating
at zero (Nat subtraction), and for `s ≤ e ≤ length(C)` the span
`new(C, s, e)` has length `e − s`. -/
theorem input_len_spec :
    (∀ s : Span α, s.input_len = min s.stop s.inner.length - s.start) ∧
    (∀ (C : List α) (s e : Nat), s ≤ e → e ≤ C.length →
      (Span.new C s e).input_len = e - s) := by
  constructor
  · intro s
    rfl
  · intro C s e h1 h2
    simp only [Span.new, Span.input_len]
    omega

/-- Witness for `input_len_spec` at a concrete carrier and bounds. -/
theorem input_len_spec_witness :
    (Span.new ([10, 20, 30] : List Nat) 1 3).input_len = 3 - 1 :=
  (@input_len_spec Nat).2 [10, 20, 30] 1 3 (by decide) (by decide)

/-- Claim C3: for `n ≤ input_len`, `take_split n = (remainder, taken)`
satisfies `remainder.start = taken.stop`, `remainder.stop = s.stop`,
`taken.start = s.start` and `taken = s.take n`. -/
theorem take_split_spec (s : Span α) (n : Nat) (h : n ≤ s.input_len) :
    (s.take_split n).1.start = (s.take_split n).2.stop ∧
    (s.take_split n).1.stop = s.stop ∧
    (s.take_split n).2.start = s.start ∧
    (s.take_split n).2 = s.take n :=
  ⟨rfl, rfl, rfl, rfl⟩

/-- Witness for `take_split_spec` at the whole-carrier span of `[5, 6, 7]`
with `n = 1`. -/
theorem take_split_spec_witness :
    1 ≤ (Span.fromInner ([5, 6, 7] : List Nat)).input_len ∧
    (((Span.fromInner ([5, 6, 7] : List Nat)).take_split 1).1.start =
        ((Span.fromInner ([5, 6, 7] : List Nat)).take_split 1).2.stop ∧
      ((Span.fromInner ([5, 6, 7] : List Nat)).take_split 1).1.stop =
        (Span.fromInner ([5, 6, 7] : List Nat)).stop ∧
      ((Span.fromInner ([5, 6, 7] : List Nat)).take_split 1).2.start =
        (Span.fromInner ([5, 6, 7] : List Nat)).start ∧
      ((Span.fromInner ([5, 6, 7] : List Nat)).take_split 1).2 =
        (Span.fromInner ([5, 6, 7] : List Nat)).take 1) :=
  ⟨by decide, take_split_spec (Span.fromInner [5, 6, 7]) 1 (by decide)⟩

/-- Claim C4: relative slicing composes —
`from(C).slice(a..b).slice(c..d) = from(C).slice(a+c..a+d)` for valid
nested sub-ranges — and slicing by the full range returns the span
unchanged. -/
theorem slice_comp_spec (C : List α) (a b c d : Nat)
    (h1 : a ≤ b) (h2 : b ≤ C.length) (h3 : c ≤ d) (h4 : d ≤ b - a) :
    ((Span.fromInner C).slice a b).slice c d =
      (Span.fromInner C).slice (a + c) (a + d) ∧
    ∀ s : Span α, s.sliceFull = s := by
  constructor
  · simp [Span.fromInner, Span.slice, Nat.add_assoc]
  · intro s
    rfl

/-- Witness for `slice_comp_spec` on the five-element carrier
`[1, 2, 3, 4, 5]` with ranges `1..4` and `1..2`. -/
theorem slice_comp_spec_witness :
    ((Span.fromInner ([1, 2, 3, 4, 5] : List Nat)).slice 1 4).slice 1 2 =
      (Span.fromInner ([1, 2, 3, 4, 5] : List Nat)).slice (1 + 1) (1 + 2) :=
  (slice_comp_spec [1, 2, 3, 4, 5] 1 4 1 2
    (by decide) (by decide) (by decide) (by decide)).1

/-- Claim C5: `split_at_position` returns `Ok(take_split(n))` when the first
element of the materialized content satisfying the predicate is at relative
index `n`, and `Incomplete` (not `Error`) when no element satisfies it. -/
theorem split_at_position_spec (s : Span α) (p : α → Bool)
    (content : List α) (h : s.as_inner = some content) :
    (∀ n, content.findIdx? p = some n →
      s.split_at_position p =
        some (.ok (s.take_split n).1 (s.take_split n).2)) ∧
    (content.findIdx? p = none →
      s.split_at_position p = some (.incomplete 1)) := by
  constructor
  · intro n hn
    simp [Span.split_at_position, h, hn]
  · intro hn
    simp [Span.split_at_position, h, hn]

/-- Witness for `split_at_position_spec`: a found match at index 1 and a
never-matching predicate on the whole-carrier span of `[1, 2, 3]`. -/
theorem split_at_position_spec_witness :
    (Span.fromInner ([1, 2, 3] : List Nat)).split_at_position
        (fun x => x == 2) =
      some (.ok ((Span.fromInner ([1, 2, 3] : List Nat)).take_split 1).1
        ((Span.fromInner ([1, 2, 3] : List Nat)).take_split 1).2) ∧
    (Span.fromInner ([1, 2, 3] : List Nat)).split_at_position
        (fun x => x == 9) = some (.incomplete 1) :=
  ⟨(split_at_position_spec (Span.fromInner [1, 2, 3]) (fun x => x == 2)
      [1, 2, 3] (by decide)).1 1 (by decide),
   (split_at_position_spec (Span.fromInner [1, 2, 3]) (fun x => x == 9)
      [1, 2, 3] (by decide)).2 (by decide)⟩

/-- Claim C6: `split_at_position1_complete` gives `Error(kind)` on a match
at relative index 0, `Ok(take_split(n))` on a first match at `n > 0`,
consumes the whole span on no match over non-empty content, and gives a
definitive `Error` (never `Incomplete`) on no match over empty content. -/
theorem split_at_position1_complete_spec (s : Span α) (p : α → Bool)
    (e : Nat) (content : List α) (h : s.as_inner = some content) :
    (content.findIdx? p = some 0 →
      s.split_at_position1_complete p e = some (.err s e)) ∧
    (∀ n, content.findIdx? p = some (n + 1) →
      s.split_at_position1_complete p e =
        some (.ok (s.take_split (n + 1)).1 (s.take_split (n + 1)).2)) ∧
    (content.findIdx? p = none → content ≠ [] →
      s.split_at_position1_complete p e =
        some (.ok (s.take_split s.input_len).1
          (s.take_split s.input_len).2)) ∧
    (content.findIdx? p = none → content = [] →
      s.split_at_position1_complete p e = some (.err s e)) := by
  refine ⟨?_, ?_, ?_, ?_⟩
  · intro hn
    simp [Span.split_at_position1_complete, h, hn]
  · intro n hn
    simp [Span.split_at_position1_complete, h, hn]
  · intro hn hne
    have hlen : ¬ content.length = 0 := by
      rw [List.length_eq_zero]
      exact hne
    simp [Span.split_at_position1_complete, h, hn, hlen]
  · intro hn he
    subst he
    simp [Span.split_at_position1_complete, h, hn]

/-- Witness for `split_at_position1_complete_spec`: a match at index 0 on a
non-empty span, and the empty span positioned at carrier end (the spec
Scenario C) both give a definitive error. -/
theorem split_at_position1_complete_spec_witness :
    (Span.fromInner ([1, 2, 3] : List Nat)).split_at_position1_complete
        (fun x => x == 1) 7 =
      some (.err (Span.fromInner ([1, 2, 3] : List Nat)) 7) ∧
    (Span.endOf ([1, 2, 3] : List Nat)).split_at_position1_complete
        (fun x => x == 1) 7 =
      some (.err (Span.endOf ([1, 2, 3] : List Nat)) 7) :=
  ⟨(split_at_position1_complete_spec (Span.fromInner [1, 2, 3])
      (fun x => x == 1) 7 [1, 2, 3] (by decide)).1 (by decide),
   (split_at_position1_complete_spec (Span.endOf [1, 2, 3])
      (fun x => x == 1) 7 [] (by decide)).2.2.2 (by decide) rfl⟩

/-- Claim C7: for spans over the same carrier,
`a.offset(b) = max(0, b.start − a.start)` (computed over the integers). -/
theorem offset_spec (a b : Span α) (h : a.inner = b.inner) :
    a.offset b = Int.toNat (max 0 ((b.start : Int) - (a.start : Int))) := by
  simp only [Span.offset]
  omega

/-- Witness for `offset_spec` at spans starting at 2 and 5 over the same
carrier. -/
theorem offset_spec_witness :
    (Span.new ([1, 2, 3, 4, 5] : List Nat) 2 4).offset
        (Span.new ([1, 2, 3, 4, 5] : List Nat) 5 5) =
      Int.toNat (max 0 ((5 : Int) - (2 : Int))) :=
  offset_spec (Span.new [1, 2, 3, 4, 5] 2 4)
    (Span.new [1, 2, 3, 4, 5] 5 5) rfl

/-- Claim C8: for spans over the same carrier, `between(a, b)` is the span
`[a.start, b.start)` and `to(a, b)` is the span `[a.start, b.end)`, whose
materialization is the carrier content of `[a.start, b.end)`. -/
theorem between_to_spec (a b : Span α) (h : a.inner = b.inner)
    (h1 : a.start ≤ b.stop) (h2 : b.stop ≤ a.inner.length) :
    Span.between a b = Span.new a.inner a.start b.start ∧
    Span.to' a b = Span.new a.inner a.start b.stop ∧
    (Span.to' a b).as_inner =
      some ((a.inner.take b.stop).drop a.start) := by
  refine ⟨rfl, rfl, ?_⟩
  simp [Span.to', Span.as_inner, rustSlice, h1, h2]

/-- Witness for `between_to_spec` at the spans `[0, 2)` and `[3, 5)` over
`[1, 2, 3, 4, 5]`. -/
theorem between_to_spec_witness :
    Span.between (Span.new ([1, 2, 3, 4, 5] : List Nat) 0 2)
        (Span.new ([1, 2, 3, 4, 5] : List Nat) 3 5) =
      Span.new ([1, 2, 3, 4, 5] : List Nat) 0 3 ∧
    Span.to' (Span.new ([1, 2, 3, 4, 5] : List Nat) 0 2)
        (Span.new ([1, 2, 3, 4, 5] : List Nat) 3 5) =
      Span.new ([1, 2, 3, 4, 5] : List Nat) 0 5 ∧
    (Span.to' (Span.new ([1, 2, 3, 4, 5] : List Nat) 0 2)
        (Span.new ([1, 2, 3, 4, 5] : List Nat) 3 5)).as_inner =
      some ((([1, 2, 3, 4, 5] : List Nat).take 5).drop 0) :=
  between_to_spec (Span.new [1, 2, 3, 4, 5] 0 2)
    (Span.new [1, 2, 3, 4, 5] 3 5) rfl (by decide) (by decide)

/-- Claim C9: `value_i64` aborts (panics, modelled as `none`) exactly when
the materialized content does not parse as an i64, and returns the parsed
value when it does. -/
theorem value_i64_spec (s : Span Char) (content : List Char)
    (h : s.as_inner = some content) :
    (s.value_i64 = none ↔ parseI64 content = none) ∧
    (∀ v : Int, parseI64 content = some v → s.value_i64 = some v) := by
  constructor
  · simp [Span.value_i64, h]
  · intro v hv
    simp [Span.value_i64, h, hv]

/-- Witness for `value_i64_spec`: the span materializing the digits 4, 2
yields the value 42. -/
theorem value_i64_spec_witness :
    (Span.new (['4', '2', 'x'] : List Char) 0 2).value_i64 = some 42 :=
  (value_i64_spec (Span.new ['4', '2', 'x'] 0 2) ['4', '2']
    (by decide)).2 42 (by decide)

/-- Claim C10: for every count `n` — also `n` beyond the span length —
`take` and `take_split` return normally with no bounds check: taken is
`[start, start + n)` and the remainder is `[start + n, end)`, with no
clamping to the original end or the carrier length. -/
theorem take_no_clamp_spec (s : Span α) (n : Nat) :
    s.take n = Span.new s.inner s.start (s.start + n) ∧
    s.take_split n =
      (Span.new s.inner (s.start + n) s.stop,
       Span.new s.inner s.start (s.start + n)) :=
  ⟨rfl, rfl⟩
